import Mathlib

/-!
Shallow embedding of the `GoogleADK-Demo` repository (files
`my_agent/tools.py` and `my_agent/agent.py`) and proofs about it.

Python dictionaries whose keys matter to the claims (tool results, the
tool-context session state) are embedded as association lists
`List (String × String)`.  Python string helpers used by the source
(`str.lower`, `str.replace`, `str.capitalize`, truthiness of optional
strings, `\x7b:.0f\x7d` float formatting) are embedded explicitly below.
-/

namespace ADKDemo

/-- Python `str.lower()`: every character lower-cased. -/
def pyLower (s : String) : String :=
  String.mk (s.toList.map Char.toLower)

/-- Python `str.lower()` composed with `.replace(" ", "")`, exactly the
normalisation performed at the top of `get_weather`
(`city.lower().replace(" ", "")`): every character lower-cased, then every
space removed. -/
def normalizeCity (city : String) : String :=
  String.mk ((pyLower city).toList.filter (fun c => c ≠ ' '))

/-- Python `str.capitalize()`: first character upper-cased, all remaining
characters lower-cased. -/
def pyCapitalize (s : String) : String :=
  match s.toList with
  | [] => ""
  | c :: cs => String.mk (c.toUpper :: cs.map Char.toLower)

/-- Python `\x7bq:.0f\x7d` formatting of a numeric value: round half to
even, then print the integer. -/
def formatF0 (q : Rat) : String :=
  let f : Int := ⌊q⌋
  let frac : Rat := q - (f : Rat)
  let r : Int :=
    if frac < 1/2 then f
    else if 1/2 < frac then f + 1
    else if f % 2 = 0 then f else f + 1
  toString r

/-- The session state of a `ToolContext`, embedded as an association list
from state keys to string values. -/
abbrev StateMap := List (String × String)

/-- Python `dict.get(k, default)` on the session state. -/
def stateGet (st : StateMap) (k dflt : String) : String :=
  match st.find? (fun p => p.1 = k) with
  | some p => p.2
  | none => dflt

/-- Python `state[k] = v`: overwrite the value when the key is present,
append the pair otherwise (insertion-ordered, like a Python dict). -/
def stateSet (st : StateMap) (k v : String) : StateMap :=
  if st.any (fun p => p.1 = k) then
    st.map (fun p => if p.1 = k then (k, v) else p)
  else st ++ [(k, v)]

/-- Lookup of a key in an embedded result dictionary. -/
def dictGet (d : List (String × String)) (k : String) : Option String :=
  (d.find? (fun p => p.1 = k)).map Prod.snd

/-- The `mock_weather_db` of `get_weather`: city key, `temp_c`, `condition`. -/
def mock_weather_db : List (String × Int × String) :=
  [("newyork", 25, "sunny"),
   ("london", 15, "cloudy"),
   ("tokyo", 18, "light rain")]

/-- Embedding of `city_normalized in mock_weather_db` and
`mock_weather_db[city_normalized]`. -/
def dbLookup (k : String) : Option (Int × String) :=
  (mock_weather_db.find? (fun p => p.1 = k)).map Prod.snd

/-- The inner temperature branch of `get_weather`: given the preferred unit
read from state and the stored Celsius temperature, produce the numeric
value reported and the unit suffix.  `(temp_c * 9/5) + 32` is Python float
arithmetic, embedded as exact rational arithmetic. -/
def tempDisplay (preferred_unit : String) (temp_c : Int) : Rat × String :=
  if preferred_unit = "Fahrenheit" then (((temp_c : Rat) * 9 / 5) + 32, "°F")
  else ((temp_c : Rat), "°C")

/-- The success-path report f-string of `get_weather`:
`f"The weather in \x7bcity.capitalize()\x7d is \x7bcondition\x7d with a temperature of \x7btemp_value:.0f\x7d\x7btemp_unit\x7d."`. -/
def mkReport (city condition tempStr tempUnit : String) : String :=
  "The weather in " ++ pyCapitalize city ++ " is " ++ condition ++
  " with a temperature of " ++ tempStr ++ tempUnit ++ "."

/-- Embedding of `get_weather(city, tool_context)` from `my_agent/tools.py`.  Returns the
result dictionary together with the session state after the call (the
source mutates `tool_context.state` in place on the success path only). -/
def get_weather (city : String) (st : StateMap) :
    List (String × String) × StateMap :=
  let preferred_unit := stateGet st "user_preference_temperature_unit" "Celsius"
  let city_normalized := normalizeCity city
  match dbLookup city_normalized with
  | some (temp_c, condition) =>
    let td := tempDisplay preferred_unit temp_c
    let report := mkReport city condition (formatF0 td.1) td.2
    ([("status", "success"), ("report", report)],
     stateSet st "last_city_checked_stateful" city)
  | none =>
    ([("status", "error"),
      ("error_message",
       "Sorry, I don't have weather information for '" ++ city ++ "'.")],
     st)

/-- Embedding of `get_current_time(city)` from `my_agent/tools.py`.  The wall-clock
reading `datetime.datetime.now(tz).strftime(...)` is impure; it is passed
in as the already-formatted string `nowStr`, which the function only
splices into the success report. -/
def get_current_time (city : String) (nowStr : String) :
    List (String × String) :=
  if pyLower city = "new york" then
    [("status", "success"),
     ("report", "The current time in " ++ city ++ " is " ++ nowStr)]
  else
    [("stauts", "error"),
     ("error_message",
      "Sorry, I don't have timezone information for " ++ city ++ ".")]

/-- Embedding of `say_hello(name=None)` from `my_agent/tools.py`.  Python `if name:` is
truthiness: both `None` and the empty string take the generic branch. -/
def say_hello (name : Option String) : String :=
  match name with
  | some n => if n = "" then "Hello there!" else "Hello, " ++ n ++ "!"
  | none => "Hello there!"

/-- Embedding of `say_goodbye()` from `my_agent/tools.py`. -/
def say_goodbye : String :=
  "Goodbye! Have a great day."

/-- Decidable substring check on strings (`needle in haystack`). -/
def containsSub (haystack needle : String) : Bool :=
  go needle.toList haystack.toList
where
  go (pat : List Char) : List Char → Bool
    | [] => pat.isEmpty
    | c :: cs => pat.isPrefixOf (c :: cs) || go pat cs

/-- Modelled from the spec: the source imports `block_keyword_guardrail`
from a `guardrails` module that is not part of the given source tree.  Per
the spec it is one of "two guardrail predicate functions performing
substring checks on text" that "intercept and block disallowed keywords
... before they reach the model": given the disallowed keywords and the
user message text, it returns `some` blocking response exactly when a
disallowed keyword occurs as a substring of the message, and `none`
(let the model call proceed) otherwise. -/
def block_keyword_guardrail (disallowedKeywords : List String)
    (messageText : String) : Option String :=
  if disallowedKeywords.any (fun kw => containsSub messageText kw) then
    some "I cannot process this request because it contains a blocked keyword."
  else none

/-- Modelled from the spec: the source imports `block_tool_guardrail` from
the missing `guardrails` module.  Per the spec it performs a substring
check on "the tool's city argument" and blocks "disallowed ... city names
before they reach ... the tool": given the disallowed city names and the
`city` argument of the tool invocation, it returns `some` blocking result
exactly when a disallowed city name occurs as a substring of the argument,
and `none` (let the tool run) otherwise. -/
def block_tool_guardrail (disallowedCities : List String)
    (cityArg : String) : Option String :=
  if disallowedCities.any (fun c => containsSub cityArg c) then
    some "Policy restriction: cannot look up this city."
  else none

/-- Modelled from the spec: the ADK framework's `before_model_callback`
semantics ("intercept ... before they reach the model").  The callback
runs first; when it returns a response the model is never invoked
(second component `false`), otherwise the model runs (`true`). -/
def runModelCall (before : String → Option String)
    (model : String → String) (msg : String) : String × Bool :=
  match before msg with
  | some r => (r, false)
  | none => (model msg, true)

/-- Modelled from the spec: the ADK framework's `before_tool_callback`
semantics ("intercept ... before they reach ... the tool").  The callback
runs on the tool's city argument first; when it returns a result the tool
is never executed (second component `false`), otherwise the tool runs
(`true`). -/
def runToolCall (before : String → Option String)
    (tool : String → String) (cityArg : String) : String × Bool :=
  match before cityArg with
  | some r => (r, false)
  | none => (tool cityArg, true)

/-- The names of the guardrail predicate functions the repository's
`agent.py` imports and registers. -/
def guardrailFunctionNames : List String :=
  ["block_keyword_guardrail", "block_tool_guardrail"]

/-- Model identifier constants from `my_agent/agent.py`. -/
def MODEL_GEMINI_2_0_FLASH : String := "gemini-2.0-flash"

/-- Constant `MODEL_GPT_4O` from `my_agent/agent.py` (the constant's name says 4o
but its value is the GPT-4.1 identifier). -/
def MODEL_GPT_4O : String := "openai/gpt-4.1"

/-- Constant `MODEL_CLAUDE_SONNET` from `my_agent/agent.py`. -/
def MODEL_CLAUDE_SONNET : String := "anthropic/claude-sonnet-4-20250514"

/-- The declarative wiring of an ADK `Agent(...)` construction: tools and
callbacks are referenced by the function names passed in the source. -/
inductive AgentCfg where
  | mk (name : String) (model : String) (tools : List String)
      (subAgents : List AgentCfg)
      (beforeModelCallbackName : Option String)
      (beforeToolCallbackName : Option String)

def AgentCfg.name : AgentCfg → String
  | .mk n _ _ _ _ _ => n

def AgentCfg.model : AgentCfg → String
  | .mk _ m _ _ _ _ => m

def AgentCfg.tools : AgentCfg → List String
  | .mk _ _ t _ _ _ => t

def AgentCfg.subAgents : AgentCfg → List AgentCfg
  | .mk _ _ _ s _ _ => s

def AgentCfg.beforeModelCallbackName : AgentCfg → Option String
  | .mk _ _ _ _ b _ => b

def AgentCfg.beforeToolCallbackName : AgentCfg → Option String
  | .mk _ _ _ _ _ b => b

/-- Wiring of `greeting_agent` from `my_agent/agent.py`. -/
def greeting_agent : AgentCfg :=
  .mk "greeting_agent" MODEL_GPT_4O ["say_hello"] [] none none

/-- Wiring of `farewell_agent` from `my_agent/agent.py`. -/
def farewell_agent : AgentCfg :=
  .mk "farewell_agent" MODEL_CLAUDE_SONNET ["say_goodbye"] [] none none

/-- Wiring of `weather_agent_team` (the root agent) from `my_agent/agent.py`. -/
def weather_agent_team : AgentCfg :=
  .mk "weather_agent_v2" MODEL_GEMINI_2_0_FLASH ["get_weather"]
    [greeting_agent, farewell_agent]
    (some "block_keyword_guardrail") (some "block_tool_guardrail")

end ADKDemo

namespace ADKDemo

/-! ## Helper lemmas -/

/-- Characterisation of the mock-database lookup on an arbitrary key. -/
theorem dbLookup_eq (k : String) :
    dbLookup k =
      if k = "newyork" then some (25, "sunny")
      else if k = "london" then some (15, "cloudy")
      else if k = "tokyo" then some (18, "light rain")
      else none := by
  by_cases h1 : k = "newyork"
  · subst h1; rfl
  · by_cases h2 : k = "london"
    · subst h2; rfl
    · by_cases h3 : k = "tokyo"
      · subst h3; rfl
      · have hf : mock_weather_db.find? (fun p => p.1 = k) = none := by
          rw [List.find?_eq_none]
          intro x hx
          simp only [mock_weather_db, List.mem_cons, List.not_mem_nil,
            or_false] at hx
          rcases hx with h | h | h <;> subst h <;>
            simp [Ne.symm h1, Ne.symm h2, Ne.symm h3]
        simp [dbLookup, hf, h1, h2, h3]

/-- Formatting an integer-valued temperature with `:.0f` prints the
integer itself. -/
theorem formatF0_intCast (t : Int) : formatF0 ((t : Rat)) = toString t := by
  simp [formatF0]

/-- Evaluation of the New York Fahrenheit conversion: 25 °C is 77 °F. -/
theorem formatF0_newyork : formatF0 (((25 : Rat) * 9 / 5) + 32) = "77" := by
  have h : ((25 : Rat) * 9 / 5) + 32 = ((77 : Int) : Rat) := by norm_num
  rw [h, formatF0_intCast]; rfl

/-- Evaluation of the London Fahrenheit conversion: 15 °C is 59 °F. -/
theorem formatF0_london : formatF0 (((15 : Rat) * 9 / 5) + 32) = "59" := by
  have h : ((15 : Rat) * 9 / 5) + 32 = ((59 : Int) : Rat) := by norm_num
  rw [h, formatF0_intCast]; rfl

/-- Evaluation of the Tokyo Fahrenheit conversion: 18 °C is 64.4 °F,
which `:.0f` rounds to 64. -/
theorem formatF0_tokyo : formatF0 (((18 : Rat) * 9 / 5) + 32) = "64" := by
  have hfl : ⌊((18 : Rat) * 9 / 5) + 32⌋ = 64 := by norm_num
  have hlt : ((18 : Rat) * 9 / 5) + 32 - ((64 : Int) : Rat) < 1/2 := by norm_num
  simp only [formatF0, hfl, if_pos (by rw [hfl] at *; exact hlt)]
  rfl

/-- On a successful lookup, the report of `get_weather` is the f-string
built from the preferred unit read from state. -/
theorem get_weather_report_of_found (city : String) (st : StateMap)
    (tc : Int) (cond : String)
    (hdb : dbLookup (normalizeCity city) = some (tc, cond)) :
    dictGet (get_weather city st).1 "report" =
      some (mkReport city cond
        (formatF0 (tempDisplay
          (stateGet st "user_preference_temperature_unit" "Celsius") tc).1)
        (tempDisplay
          (stateGet st "user_preference_temperature_unit" "Celsius") tc).2) := by
  simp [get_weather, hdb, dictGet, List.find?]

/-- Overwriting an existing key puts the new pair where the key was found. -/
theorem find?_overwrite (st : StateMap) (k v : String)
    (h : st.any (fun p => p.1 = k) = true) :
    (st.map (fun p => if p.1 = k then (k, v) else p)).find?
      (fun p => p.1 = k) = some (k, v) := by
  induction st with
  | nil => simp at h
  | cons p tl ih =>
    by_cases hp : p.1 = k
    · simp [List.find?, hp]
    · have h' : tl.any (fun q => q.1 = k) = true := by
        simp [List.any_cons, hp] at h
        simpa using h
      simp [List.find?, hp, ih h']

/-- Appending a pair with a fresh key makes it the one found for that key. -/
theorem find?_append_new (st : StateMap) (k v : String)
    (h : st.any (fun p => p.1 = k) = false) :
    (st ++ [(k, v)]).find? (fun p => p.1 = k) = some (k, v) := by
  induction st with
  | nil => simp [List.find?]
  | cons p tl ih =>
    simp [List.any_cons] at h
    obtain ⟨hp, htl⟩ := h
    simp [List.find?, hp, ih (by simpa using htl)]

/-- Reading a key right after writing it returns the written value. -/
theorem stateGet_stateSet (st : StateMap) (k v d : String) :
    stateGet (stateSet st k v) k d = v := by
  unfold stateSet
  by_cases h : st.any (fun p => p.1 = k)
  · simp only [h, if_true]
    simp [stateGet, find?_overwrite st k v h]
  · have h0 : st.any (fun p => p.1 = k) = false := Bool.eq_false_iff.mpr h
    simp only [h0, Bool.false_eq_true, if_false]
    unfold stateGet
    rw [find?_append_new st k v h0]

/-- A named response function used to instantiate callback theorems. -/
def constResponder : String → String := fun _ => "framework response"

/-! ## Claim theorems -/

/-- C1: for every input city string and tool context, `get_weather` looks
up the normalised city name (lower-cased, spaces removed); when the
normalised name is one of `newyork`, `london`, `tokyo`, the result has
`status = success` and a `report` string, otherwise the result has
`status = error` and an `error_message` string; in particular `New York`,
`new york` and `NEWYORK` all normalise to `newyork` and succeed. -/
theorem get_weather_city_lookup (city : String) (st : StateMap) :
    (normalizeCity city ∈ ["newyork", "london", "tokyo"] →
      dictGet (get_weather city st).1 "status" = some "success" ∧
      ∃ r, dictGet (get_weather city st).1 "report" = some r) ∧
    (normalizeCity city ∉ ["newyork", "london", "tokyo"] →
      dictGet (get_weather city st).1 "status" = some "error" ∧
      dictGet (get_weather city st).1 "error_message" =
        some ("Sorry, I don't have weather information for '" ++ city ++ "'.")) ∧
    normalizeCity "New York" = "newyork" ∧
    normalizeCity "new york" = "newyork" ∧
    normalizeCity "NEWYORK" = "newyork" := by
  refine ⟨?_, ?_, by decide, by decide, by decide⟩
  · intro hmem
    simp only [List.mem_cons, List.not_mem_nil, or_false] at hmem
    rcases hmem with h | h | h <;>
      simp [get_weather, dbLookup_eq, h, dictGet, List.find?]
  · intro hmem
    simp only [List.mem_cons, List.not_mem_nil, or_false, not_or] at hmem
    obtain ⟨h1, h2, h3⟩ := hmem
    simp [get_weather, dbLookup_eq, h1, h2, h3, dictGet, List.find?]

/-- Witness for C1 at the concrete cities `New York` and `Paris`. -/
theorem get_weather_city_lookup_instance :
    dictGet (get_weather "New York" []).1 "status" = some "success" ∧
    dictGet (get_weather "Paris" []).1 "status" = some "error" :=
  ⟨((get_weather_city_lookup "New York" []).1 (by decide)).1,
   ((get_weather_city_lookup "Paris" []).2.1 (by decide)).1⟩

/-- C2: `get_weather` applies the linear conversion `temp_c * 9/5 + 32`
exactly when the session-state preference is `Fahrenheit` (so 25 °C
prints as 77, 15 °C as 59, 18 °C as 64 after `:.0f` formatting, with unit
`°F`); for every other preference value the reported value is the stored
Celsius temperature with unit `°C`. -/
theorem get_weather_unit_conversion :
    (∀ t : Int, tempDisplay "Fahrenheit" t = (((t : Rat) * 9 / 5) + 32, "°F")) ∧
    (∀ pref : String, ∀ t : Int,
      pref ≠ "Fahrenheit" → tempDisplay pref t = ((t : Rat), "°C")) ∧
    formatF0 (((25 : Rat) * 9 / 5) + 32) = "77" ∧
    formatF0 (((15 : Rat) * 9 / 5) + 32) = "59" ∧
    formatF0 (((18 : Rat) * 9 / 5) + 32) = "64" ∧
    (∀ city st (tc : Int) (cond : String),
      dbLookup (normalizeCity city) = some (tc, cond) →
      stateGet st "user_preference_temperature_unit" "Celsius" = "Fahrenheit" →
      dictGet (get_weather city st).1 "report" =
        some (mkReport city cond (formatF0 (((tc : Rat) * 9 / 5) + 32)) "°F")) ∧
    (∀ city st (tc : Int) (cond : String),
      dbLookup (normalizeCity city) = some (tc, cond) →
      stateGet st "user_preference_temperature_unit" "Celsius" ≠ "Fahrenheit" →
      dictGet (get_weather city st).1 "report" =
        some (mkReport city cond (toString tc) "°C")) := by
  refine ⟨fun t => by simp [tempDisplay],
          fun pref t hp => by simp [tempDisplay, hp],
          formatF0_newyork, formatF0_london, formatF0_tokyo, ?_, ?_⟩
  · intro city st tc cond hdb hpref
    rw [get_weather_report_of_found city st tc cond hdb, hpref]
    simp [tempDisplay]
  · intro city st tc cond hdb hpref
    rw [get_weather_report_of_found city st tc cond hdb]
    simp [tempDisplay, hpref, formatF0_intCast]

/-- Witness for C2: Tokyo with the Fahrenheit preference reports 64 °F. -/
theorem get_weather_unit_conversion_instance :
    dictGet (get_weather "Tokyo"
        [("user_preference_temperature_unit", "Fahrenheit")]).1 "report" =
      some (mkReport "Tokyo" "light rain"
        (formatF0 (((18 : Rat) * 9 / 5) + 32)) "°F") :=
  get_weather_unit_conversion.2.2.2.2.2.1 "Tokyo"
    [("user_preference_temperature_unit", "Fahrenheit")] 18 "light rain"
    (by decide) (by decide)

/-- C3: the root agent registers `block_keyword_guardrail` as its
`before_model_callback` and `block_tool_guardrail` as its
`before_tool_callback`; whenever the user message contains a disallowed
keyword the before-model callback returns a response and the model is
never invoked, and whenever the tool's city argument contains a
disallowed city name the before-tool callback returns a result and the
tool is never executed. -/
theorem guardrails_block_before_model_and_tool :
    weather_agent_team.beforeModelCallbackName = some "block_keyword_guardrail" ∧
    weather_agent_team.beforeToolCallbackName = some "block_tool_guardrail" ∧
    (∀ (kws : List String) (msg : String) (model : String → String),
      (∃ kw ∈ kws, containsSub msg kw = true) →
      (runModelCall (block_keyword_guardrail kws) model msg).2 = false) ∧
    (∀ (cities : List String) (cityArg : String) (tool : String → String),
      (∃ c ∈ cities, containsSub cityArg c = true) →
      (runToolCall (block_tool_guardrail cities) tool cityArg).2 = false) := by
  refine ⟨rfl, rfl, ?_, ?_⟩
  · intro kws msg model h
    have ha : kws.any (fun kw => containsSub msg kw) = true :=
      List.any_eq_true.mpr h
    simp [runModelCall, block_keyword_guardrail, ha]
  · intro cities cityArg tool h
    have ha : cities.any (fun c => containsSub cityArg c) = true :=
      List.any_eq_true.mpr h
    simp [runToolCall, block_tool_guardrail, ha]

/-- Witness for C3: a message containing the keyword never reaches the
model, and a blocked city argument never reaches the tool. -/
theorem guardrails_block_before_model_and_tool_instance :
    (runModelCall (block_keyword_guardrail ["BLOCK"]) constResponder
      "please BLOCK this request").2 = false ∧
    (runToolCall (block_tool_guardrail ["paris"]) constResponder
      "paris").2 = false :=
  ⟨guardrails_block_before_model_and_tool.2.2.1 ["BLOCK"]
      "please BLOCK this request" constResponder ⟨"BLOCK", by decide, by decide⟩,
   guardrails_block_before_model_and_tool.2.2.2 ["paris"] "paris"
      constResponder ⟨"paris", by decide, by decide⟩⟩

/-- C4: the guardrail logic is exactly the two predicate functions
`block_keyword_guardrail` and `block_tool_guardrail`, and each blocks
precisely when a disallowed string occurs as a substring of the text it
inspects (the user message text, respectively the tool's city argument). -/
theorem guardrails_are_two_substring_predicates :
    guardrailFunctionNames = ["block_keyword_guardrail", "block_tool_guardrail"] ∧
    guardrailFunctionNames.length = 2 ∧
    (∀ (kws : List String) (msg : String),
      (block_keyword_guardrail kws msg).isSome
        = kws.any (fun kw => containsSub msg kw)) ∧
    (∀ (cities : List String) (cityArg : String),
      (block_tool_guardrail cities cityArg).isSome
        = cities.any (fun c => containsSub cityArg c)) := by
  refine ⟨rfl, rfl, ?_, ?_⟩
  · intro kws msg
    by_cases h : kws.any (fun kw => containsSub msg kw) <;>
      simp [block_keyword_guardrail, h]
  · intro cities cityArg
    by_cases h : cities.any (fun c => containsSub cityArg c) <;>
      simp [block_tool_guardrail, h]

/-- C5: `get_weather` reads the session-state key
`user_preference_temperature_unit` with default `Celsius`; when the key is
absent the read yields `Celsius`, and for any preference value other than
`Fahrenheit` the tool reports the stored Celsius temperature with `°C`. -/
theorem get_weather_state_read_default :
    (∀ st : StateMap,
      st.find? (fun p => p.1 = "user_preference_temperature_unit") = none →
      stateGet st "user_preference_temperature_unit" "Celsius" = "Celsius") ∧
    (∀ city st (tc : Int) (cond : String),
      dbLookup (normalizeCity city) = some (tc, cond) →
      stateGet st "user_preference_temperature_unit" "Celsius" ≠ "Fahrenheit" →
      dictGet (get_weather city st).1 "report" =
        some (mkReport city cond (toString tc) "°C")) := by
  refine ⟨?_, ?_⟩
  · intro st h
    simp [stateGet, h]
  · intro city st tc cond hdb hpref
    rw [get_weather_report_of_found city st tc cond hdb]
    simp [tempDisplay, hpref, formatF0_intCast]

/-- Witness for C5: with an empty state the preference reads `Celsius`,
and a `Kelvin` preference still yields Celsius output for London. -/
theorem get_weather_state_read_default_instance :
    stateGet [] "user_preference_temperature_unit" "Celsius" = "Celsius" ∧
    dictGet (get_weather "London"
        [("user_preference_temperature_unit", "Kelvin")]).1 "report" =
      some (mkReport "London" "cloudy" (toString (15 : Int)) "°C") :=
  ⟨get_weather_state_read_default.1 [] (by decide),
   get_weather_state_read_default.2 "London"
     [("user_preference_temperature_unit", "Kelvin")] 15 "cloudy"
     (by decide) (by decide)⟩

/-- C6: the greeting agent is configured with model `openai/gpt-4.1`, the
farewell agent with `anthropic/claude-sonnet-4-20250514`, and these two
identifiers differ from each other and from the root agent's
`gemini-2.0-flash`. -/
theorem sub_agent_models_distinct :
    greeting_agent.model = "openai/gpt-4.1" ∧
    farewell_agent.model = "anthropic/claude-sonnet-4-20250514" ∧
    weather_agent_team.model = "gemini-2.0-flash" ∧
    greeting_agent.model = MODEL_GPT_4O ∧
    farewell_agent.model = MODEL_CLAUDE_SONNET ∧
    weather_agent_team.model = MODEL_GEMINI_2_0_FLASH ∧
    greeting_agent.model ≠ farewell_agent.model ∧
    greeting_agent.model ≠ weather_agent_team.model ∧
    farewell_agent.model ≠ weather_agent_team.model :=
  ⟨rfl, rfl, rfl, rfl, rfl, rfl, by decide, by decide, by decide⟩

/-- C7: the root agent's tools list is exactly `[get_weather]` and its
sub-agents list is exactly `[greeting_agent, farewell_agent]`, where the
greeting agent's only tool is `say_hello` and the farewell agent's only
tool is `say_goodbye`. -/
theorem root_agent_wiring :
    weather_agent_team.tools = ["get_weather"] ∧
    weather_agent_team.subAgents = [greeting_agent, farewell_agent] ∧
    greeting_agent.tools = ["say_hello"] ∧
    farewell_agent.tools = ["say_goodbye"] :=
  ⟨rfl, rfl, rfl, rfl⟩

/-- C8: for every city other than `new york` up to case,
`get_current_time` returns a dict whose keys are exactly `stauts` (set to
`error`) and `error_message` — the documented `status` key is absent on
the error path — while for `new york` in any casing the result has
`status = success` and a `report` key. -/
theorem get_current_time_key_typo (city nowStr : String) :
    (pyLower city ≠ "new york" →
      (get_current_time city nowStr).map Prod.fst = ["stauts", "error_message"] ∧
      dictGet (get_current_time city nowStr) "status" = none ∧
      dictGet (get_current_time city nowStr) "stauts" = some "error") ∧
    (pyLower city = "new york" →
      dictGet (get_current_time city nowStr) "status" = some "success" ∧
      ∃ r, dictGet (get_current_time city nowStr) "report" = some r) := by
  constructor
  · intro h
    simp [get_current_time, h, dictGet, List.find?]
  · intro h
    simp [get_current_time, h, dictGet, List.find?]

/-- Witness for C8 at `Paris` (error path, misspelled key) and
`New York` (success path). -/
theorem get_current_time_key_typo_instance :
    dictGet (get_current_time "Paris" "12:00") "status" = none ∧
    dictGet (get_current_time "Paris" "12:00") "stauts" = some "error" ∧
    dictGet (get_current_time "New York" "12:00") "status" = some "success" :=
  ⟨((get_current_time_key_typo "Paris" "12:00").1 (by decide)).2.1,
   ((get_current_time_key_typo "Paris" "12:00").1 (by decide)).2.2,
   ((get_current_time_key_typo "New York" "12:00").2 (by decide)).1⟩

/-- C9: `get_weather` mutates the session state only on success — when
the lookup succeeds the state key `last_city_checked_stateful` is set to
the original, un-normalised city argument, and when the lookup fails the
state is returned unchanged. -/
theorem get_weather_state_write_on_success (city : String) (st : StateMap) :
    ((dbLookup (normalizeCity city)).isSome = true →
      (get_weather city st).2 = stateSet st "last_city_checked_stateful" city ∧
      stateGet (get_weather city st).2 "last_city_checked_stateful" "" = city) ∧
    (dbLookup (normalizeCity city) = none → (get_weather city st).2 = st) := by
  constructor
  · intro h
    obtain ⟨⟨tc, cond⟩, hdb⟩ := Option.isSome_iff_exists.mp h
    constructor
    · simp [get_weather, hdb]
    · simp [get_weather, hdb, stateGet_stateSet]
  · intro h
    simp [get_weather, h]

/-- Witness for C9: a successful `Tokyo` lookup records the original
casing `Tokyo`, and an unknown `Atlantis` lookup leaves the state alone. -/
theorem get_weather_state_write_on_success_instance :
    stateGet (get_weather "Tokyo" []).2 "last_city_checked_stateful" "" = "Tokyo" ∧
    (get_weather "Atlantis" [("a", "b")]).2 = [("a", "b")] :=
  ⟨((get_weather_state_write_on_success "Tokyo" []).1 (by decide)).2,
   (get_weather_state_write_on_success "Atlantis" [("a", "b")]).2 (by decide)⟩

/-- C10: `say_hello` branches on truthiness — every non-empty name yields
`Hello, <name>!`, while both `None` and the empty string yield
`Hello there!` — and `say_goodbye` always returns
`Goodbye! Have a great day.`. -/
theorem say_hello_truthiness :
    (∀ name : String, name ≠ "" →
      say_hello (some name) = "Hello, " ++ name ++ "!") ∧
    say_hello none = "Hello there!" ∧
    say_hello (some "") = "Hello there!" ∧
    say_goodbye = "Goodbye! Have a great day." := by
  refine ⟨?_, rfl, rfl, rfl⟩
  intro n hn
  simp [say_hello, hn]

/-- Witness for C10 at the concrete name `Alice`. -/
theorem say_hello_truthiness_instance :
    say_hello (some "Alice") = "Hello, Alice!" :=
  say_hello_truthiness.1 "Alice" (by decide)

end ADKDemo
